import Mathlib

/-!
Shallow embedding of the wifi-analyzer network-map core
(src/network_map/{types,oui,discovery,identify,port_scan}.rs and the
scan-coordination parts of src/app.rs), together with theorems settling
the specification claims about it.

Strings are modelled with Lean strings; the Rust string helpers that the
code relies on (to_lowercase, to_uppercase, trim, str::contains, split,
lines, split_whitespace) are re-implemented below at the character-list
level so that every definition evaluates inside the kernel.  Rust uses
byte indices and Unicode case folding; on the ASCII data these functions
are applied to, character indices and ASCII folding coincide.
-/

namespace WifiAnalyzer

/-! ## Character and string helpers (Rust std behaviour) -/

/-- Rust char::is_ascii_hexdigit. -/
def isAsciiHex (c : Char) : Bool :=
  ('0' ≤ c && c ≤ '9') || ('a' ≤ c && c ≤ 'f') || ('A' ≤ c && c ≤ 'F')

/-- Rust char::is_ascii_graphic: printable ASCII except space (0x21..0x7E). -/
def isAsciiGraphic (c : Char) : Bool :=
  '!' ≤ c && c ≤ '~'

/-- Rust char::is_ascii_whitespace: space, tab, newline, form feed, carriage return. -/
def isAsciiWs (c : Char) : Bool :=
  c == ' ' || c == '\t' || c == '\n' || c == '\x0c' || c == '\r'

/-- Rust char::is_whitespace: the Unicode White_Space property (code
points 0x9 to 0xD, space, NEL, NBSP, ogham space, the 0x2000 to 0x200A
range, the line and paragraph separators, narrow and medium
mathematical spaces, and the ideographic space). -/
def isRustWs (c : Char) : Bool :=
  let n := c.toNat
  (0x9 ≤ n && n ≤ 0xd) || n == 0x20 || n == 0x85 || n == 0xa0 ||
  n == 0x1680 || (0x2000 ≤ n && n ≤ 0x200a) || n == 0x2028 ||
  n == 0x2029 || n == 0x202f || n == 0x205f || n == 0x3000

/-- Rust str::to_lowercase (ASCII-level model). -/
def strLower (s : String) : String :=
  String.mk (s.data.map Char.toLower)

/-- Rust str::to_uppercase (ASCII-level model). -/
def strUpper (s : String) : String :=
  String.mk (s.data.map Char.toUpper)

/-- Does the character list `l` start with `p`? (Rust str::starts_with) -/
def startsWithL : List Char → List Char → Bool
  | [], _ => true
  | _ :: _, [] => false
  | p :: ps, c :: cs => p == c && startsWithL ps cs

/-- Does `l` contain `p` as a contiguous run? (Rust str::contains) -/
def containsSubL (l p : List Char) : Bool :=
  match l with
  | [] => p.isEmpty
  | _ :: rest => startsWithL p l || containsSubL rest p

/-- Rust str::contains on strings. -/
def sContains (s pat : String) : Bool :=
  containsSubL s.data pat.data

/-- Index of the first occurrence of the run `p` in `l` (Rust str::find). -/
def findSubIdx (l p : List Char) : Option Nat :=
  match l with
  | [] => if p.isEmpty then some 0 else none
  | _ :: rest =>
    if startsWithL p l then some 0
    else (findSubIdx rest p).map (· + 1)

/-- Index of the first occurrence of character `c` in `l` (Rust str::find(char)). -/
def findCharIdx (l : List Char) (c : Char) : Option Nat :=
  findSubIdx l [c]

/-- Rust str::trim: strip Unicode whitespace from both ends. -/
def strTrim (s : String) : String :=
  String.mk (((s.data.dropWhile isRustWs).reverse.dropWhile isRustWs).reverse)

/-- Rust str::lines: split on newline and strip one carriage return
immediately preceding each newline; a trailing newline produces no
final empty line, while a carriage return on a final line that is not
newline-terminated is kept. -/
def rustLines (s : String) : List String :=
  let parts := s.data.splitOnP (· == '\n')
  let terminated := parts.dropLast.map
    (fun l => if l.getLast? = some '\r' then l.dropLast else l)
  let finalPart :=
    match parts.getLast? with
    | some [] => []
    | some l => [l]
    | none => []
  (terminated ++ finalPart).map String.mk

/-- Rust str::split_whitespace: maximal non-whitespace runs. -/
def splitWs (s : String) : List String :=
  ((s.data.splitOnP isRustWs).filter (· ≠ [])).map String.mk

/-- Rust slice::chunks with chunk size `k + 1` (the source always chunks with a
positive literal size: 50 ports, 10 devices). -/
def listChunks (k : Nat) : List α → List (List α)
  | [] => []
  | a :: l => ((a :: l).take (k + 1)) :: listChunks k ((a :: l).drop (k + 1))
termination_by l => l.length
decreasing_by simp; omega

/-! ## Data model (src/network_map/types.rs) -/

inductive DeviceType
  | Router
  | Phone
  | Computer
  | Laptop
  | Tablet
  | SmartTV
  | Printer
  | NAS
  | IoT
  | GameConsole
  | Unknown
deriving DecidableEq, Repr

inductive Protocol
  | Tcp
  | Udp
deriving DecidableEq, Repr

inductive PortState
  | Open
  | Closed
  | Filtered
deriving DecidableEq, Repr

structure Service where
  port : Nat
  protocol : Protocol
  state : PortState
  service_name : Option String
  banner : Option String
  detected_agent : Option String
deriving DecidableEq, Repr

/-- Device record; timestamps are abstract clock values supplied by the
environment (chrono Utc::now in the source). -/
structure Device where
  mac_address : String
  ip_address : String
  hostname : Option String
  vendor : Option String
  device_type : DeviceType
  custom_name : Option String
  first_seen : Nat
  last_seen : Nat
  is_online : Bool
  services : List Service
  detected_agents : List String
deriving DecidableEq, Repr

/-- Device::new. -/
def Device.new (mac_address ip_address : String) (now : Nat) : Device :=
  { mac_address := mac_address
    ip_address := ip_address
    hostname := none
    vendor := none
    device_type := DeviceType.Unknown
    custom_name := none
    first_seen := now
    last_seen := now
    is_online := true
    services := []
    detected_agents := [] }

inductive ScanPhase
  | Discovery
  | PortScan
  | Identification
  | Complete
deriving DecidableEq, Repr

structure ScanProgress where
  phase : ScanPhase
  devices_found : Nat
  current_device : Option String
  ports_scanned : Nat
  total_ports : Nat
deriving DecidableEq, Repr

/-- COMMON_PORTS from types.rs. -/
def COMMON_PORTS : List Nat :=
  [21, 22, 23, 25, 53, 80, 443, 139, 445, 548, 554, 3389, 5000, 5001,
   8080, 8443, 9100, 62078, 8008, 8009, 3000, 3001, 8000, 8001, 11434,
   9229, 8501]

/-! ## VendorDirectory (src/network_map/oui.rs)

The static table is built by inserting prefix groups into a HashMap in a
fixed order; a later insert for the same key overwrites an earlier one.
The embedding keeps the pairs in insertion order and looks up the last
matching entry. -/

def ouiApple : List String :=
  ["0026BB", "3C5AB4", "A4C361", "F0D1A9", "D0817A", "B8E856", "8866A5",
   "28E02C", "F0DCE2", "64A5C3", "48A195"]

def ouiSamsung : List String :=
  ["002119", "34145F", "50A4C8", "78BD9D", "84119E", "8C71F8", "9463D1",
   "ACE4B5", "BC8CCD"]

def ouiGoogle : List String :=
  ["001A11", "3C5AB4", "54608C", "94EB2C", "F4F5D8", "F4F5E8"]

def ouiIntelA : List String :=
  ["001111", "001302", "001500", "0016EA", "001B21", "3C970E", "485B39",
   "5CE0C5", "8086F2"]

def ouiEspressif : List String :=
  ["240AC4", "24B2DE", "2C3AE8", "30AEA4", "5CCF7F", "84CCA8", "A4CF12", "ECFABC",
   "08B61F", "08F9E0", "10521C", "10914F", "18FE34", "24D7EB", "2462AB", "283734",
   "2C9114", "2CF432", "2EC8EB", "3010DE", "303A64", "34864A", "34945B", "34AB95",
   "3C61EC", "3C71BF", "404CCA", "40F520", "44179B", "480FD2", "48E729", "4C11AE",
   "4C7525", "500291", "5C0133", "5CCF7F", "60019D", "60A5E2", "64A2F9", "64B7B7",
   "683E34", "68B6B3", "68C63A", "78E36D", "7C87CE", "807D3A", "84F703", "880BC9",
   "8C4B14", "8C7C92", "8CAAB5", "90380C", "98CDAC", "98F4AB", "A020A6", "A0D4F0",
   "A4E57C", "A8032A", "AC0BFB", "AC67B2", "B0B21C", "B4E62D", "BC8A8C", "BCDD37",
   "C45BBE", "C8C9A3", "CC50E3", "D8A01D", "D8BFC0", "D8F15B", "DC4F22", "E0E2E6",
   "E8DB84", "EC6260", "EC94D3", "F008D1", "F4CFA2", "FC019B", "FCF5C4"]

def ouiShelly : List String :=
  ["34945B", "483FDA", "84CCA8", "E8DB84", "EC6260"]

def ouiAmazon : List String :=
  ["0C47C9", "18B4A6", "34D270", "40B4CD", "50DCE7", "687D6B", "747548",
   "A002DC", "FC65DE"]

def ouiXiaomiA : List String :=
  ["00EC0A", "0C1DAF", "286C07", "34CE00", "50A728", "64B473", "74D4DD",
   "78112F", "9C99A0", "AC3743", "F8A45F"]

def ouiMicrosoft : List String :=
  ["001DD8", "0050F2", "28186D", "50579C", "7CB27D", "B483E7", "C83DD4"]

def ouiRealtek : List String :=
  ["00E04C", "00044B", "001F1F", "20CF30", "48E24B", "52540B", "54E1AD",
   "74DA38", "801F02", "94DE80", "98541B", "D8EB46", "E04F43", "EC086B"]

def ouiIntelB : List String :=
  ["001111", "001302", "001517", "0016EA", "002314", "00215D", "3413E8",
   "384697", "485D36", "5CC5D4", "606720", "645A04", "6C883C", "7C5CF8",
   "80861F", "848F69", "94659C", "985FD3", "A0369F", "A4C494", "B8088C",
   "CC2F71", "DC536C", "E4B97A"]

def ouiTpLink : List String :=
  ["001470", "14CC20", "1C3BF3", "30B5C2", "503EAA", "54E6FC", "90F652",
   "C025E9", "D80D17"]

def ouiNetgear : List String :=
  ["0024B2", "00265A", "20E52A", "28C68E", "6038E0", "744401", "9C3DCF",
   "A42B8C", "C03F0E"]

def ouiAsus : List String :=
  ["001731", "04421A", "08606E", "14DAE9", "2C4D54", "50465D", "74D02B",
   "ACDE48", "F46D04", "C87F54", "1831BF", "2CFDA1", "34977A", "38D547",
   "4CEDFB", "60A44C", "707781", "90E6BA", "9C5C8E", "AC9E17", "B06EBF",
   "BC5C4C", "D850E6", "E03F49", "F832E4", "FCAA14"]

def ouiDell : List String :=
  ["001422", "14187D", "149182", "18A99B", "28F10E", "34E6D7", "5C260A",
   "74E6E2", "D89EF3"]

def ouiHp : List String :=
  ["001083", "001185", "001635", "001708", "10604B", "28924A", "3C4A92",
   "80CE62", "D42C44"]

def ouiLenovo : List String :=
  ["002482", "347083", "4C5262", "60D819", "6C0B84", "C4D0E3", "E83934",
   "F82FA8"]

def ouiSynology : List String :=
  ["0011A0", "001132"]

def ouiRaspberry : List String :=
  ["B827EB", "DCA632", "E45F01"]

def ouiSony : List String :=
  ["000AD9", "001315", "001A80", "28A02B", "40B837", "8C4909", "A85B61",
   "F8DA0C"]

def ouiLg : List String :=
  ["001256", "10F96F", "340804", "64899A", "78F882", "9CA39B", "A8F274",
   "C83870"]

def ouiNintendo : List String :=
  ["001656", "002331", "34AF2C", "582F40", "7CBB8A", "98B6E9", "A438CC",
   "E84ECE"]

def ouiUbiquiti : List String :=
  ["00156D", "002722", "18E829", "44D9E7", "68D79A", "788A20", "802AA8",
   "FCFFD4"]

def ouiXiaomiB : List String :=
  ["0C1DAF", "28E31F", "50647B", "64B473", "7C1DD9", "98FAE3", "AC1E92",
   "F0B429"]

def ouiHuawei : List String :=
  ["000D9E", "001882", "0025D7", "24DF6A", "5C7D5E", "70700D", "88CEFA",
   "C8D15E"]

def ouiCisco : List String :=
  ["000142", "001A6D", "002155", "00259C", "28940F", "38ED18", "5475D0",
   "8851FB"]

def ouiSonos : List String :=
  ["000E58", "5494F3", "5CAAFD", "78283C", "94DAAE", "B8E937"]

def ouiRoku : List String :=
  ["08059E", "B0A737", "C8FC18", "D03478", "DC3A5E"]

/-- Entries of get_oui_database in insertion order. -/
def ouiPairs : List (String × String) :=
  ouiApple.map (·, "Apple") ++
  ouiSamsung.map (·, "Samsung") ++
  ouiGoogle.map (·, "Google") ++
  ouiIntelA.map (·, "Intel") ++
  ouiEspressif.map (·, "Espressif") ++
  ouiShelly.map (·, "Shelly") ++
  ouiAmazon.map (·, "Amazon") ++
  [("01005E", "Multicast")] ++
  ouiXiaomiA.map (·, "Xiaomi") ++
  ouiMicrosoft.map (·, "Microsoft") ++
  ouiRealtek.map (·, "Realtek") ++
  ouiIntelB.map (·, "Intel") ++
  ouiTpLink.map (·, "TP-Link") ++
  ouiNetgear.map (·, "Netgear") ++
  ouiAsus.map (·, "ASUS") ++
  ouiDell.map (·, "Dell") ++
  ouiHp.map (·, "HP") ++
  ouiLenovo.map (·, "Lenovo") ++
  ouiSynology.map (·, "Synology") ++
  ouiRaspberry.map (·, "Raspberry Pi") ++
  ouiSony.map (·, "Sony") ++
  ouiLg.map (·, "LG") ++
  ouiNintendo.map (·, "Nintendo") ++
  ouiUbiquiti.map (·, "Ubiquiti") ++
  ouiXiaomiB.map (·, "Xiaomi") ++
  ouiHuawei.map (·, "Huawei") ++
  ouiCisco.map (·, "Cisco") ++
  ouiSonos.map (·, "Sonos") ++
  ouiRoku.map (·, "Roku")

/-- HashMap::get over the table built by sequential inserts: the last
insertion for a key wins. -/
def ouiGet (key : String) : Option String :=
  (ouiPairs.reverse.find? (fun p => p.1 == key)).map (·.2)

/-- The normalization step of lookup_vendor: split on separators and pad each
of the first three octets to two uppercase hex chars, or, with fewer than
three separator-parts, keep the first six hex digits uppercased. -/
def normalizeMac (mac : String) : String :=
  let parts := mac.data.splitOnP (fun c => c == ':' || c == '-' || c == '.')
  if parts.length ≥ 3 then
    String.join ((parts.take 3).map (fun p =>
      let up := p.map Char.toUpper
      String.mk (if up.length < 2 then List.replicate (2 - up.length) '0' ++ up else up)))
  else
    String.mk (((mac.data.filter isAsciiHex).take 6).map Char.toUpper)

/-- lookup_vendor. -/
def lookupVendor (mac : String) : Option String :=
  let normalized := normalizeMac mac
  if normalized.length < 6 then none
  else
    match ouiGet normalized with
    | some vendor => some vendor
    | none =>
      match normalized.data.get? 1 with
      | some c =>
        if c == '2' || c == '6' || c == 'A' || c == 'E' then
          some "Private/Randomized"
        else none
      | none => none

/-! ## PortScanner (src/network_map/port_scan.rs)

Network I/O is the environment: a NetEnv says, for each (ip, port), what
the socket-address parse and the bounded-wait connect attempt produce.
A successful connect carries the raw text the banner read returned
inside its 1000 ms window (none for a read error, timeout, or zero
bytes); banner sanitization is part of the embedded code. -/

/-- Outcome of one timeout(500ms, TcpStream::connect) attempt. -/
inductive ConnectOutcome
  | success (readRaw : Option String)
  | failure
  | timeout
deriving DecidableEq, Repr

structure NetEnv where
  /-- Whether format!("ip:port").parse::<SocketAddr>() succeeds. -/
  parseAddrOk : String → Nat → Bool
  /-- Result of the bounded connect attempt against ip:port. -/
  connect : String → Nat → ConnectOutcome

/-- The sanitization grab_banner applies to the raw bytes it read: keep
printable-ASCII and ASCII-whitespace characters, cap at 200, trim, and
treat an empty result as no banner. -/
def sanitizeBanner (raw : String) : Option String :=
  let banner := strTrim (String.mk
    ((raw.data.filter (fun c => isAsciiGraphic c || isAsciiWs c)).take 200))
  if banner == "" then none else some banner

/-- grab_banner: the probe write does not influence the modelled read
result (the environment already accounts for the peer's response). -/
def grabBanner (env : NetEnv) (ip : String) (port : Nat) : Option String :=
  match env.connect ip port with
  | ConnectOutcome.success readRaw => readRaw.bind sanitizeBanner
  | _ => none

/-- identify_service. -/
def identifyService (port : Nat) (banner : Option String) : Option String :=
  let fromBanner : Option String :=
    match banner with
    | some b =>
      let bl := strLower b
      if sContains bl "ssh" then some "SSH"
      else if sContains bl "http" || sContains bl "html" then some "HTTP"
      else if sContains bl "ftp" then some "FTP"
      else if sContains bl "smtp" then some "SMTP"
      else if sContains bl "ollama" then some "Ollama API"
      else if sContains bl "openclaw" then some "OpenClaw"
      else none
    | none => none
  match fromBanner with
  | some s => some s
  | none =>
    if port == 21 then some "FTP"
    else if port == 22 then some "SSH"
    else if port == 23 then some "Telnet"
    else if port == 25 then some "SMTP"
    else if port == 53 then some "DNS"
    else if port == 80 then some "HTTP"
    else if port == 443 then some "HTTPS"
    else if port == 139 || port == 445 then some "SMB"
    else if port == 548 then some "AFP"
    else if port == 554 then some "RTSP"
    else if port == 3389 then some "RDP"
    else if port == 5000 || port == 5001 then some "Synology"
    else if port == 8080 || port == 8443 then some "HTTP Alt"
    else if port == 9100 then some "Printer"
    else if port == 62078 then some "Apple Device"
    else if port == 8008 || port == 8009 then some "Chromecast"
    else if port == 11434 then some "Ollama"
    else if port == 9229 then some "Node Debug"
    else if port == 8501 then some "Streamlit"
    else if port == 3000 || port == 3001 then some "Dev Server"
    else if port == 8000 || port == 8001 then some "Python Server"
    else if port == 18789 then some "OpenClaw Gateway"
    else if port == 18793 then some "OpenClaw Canvas"
    else none

/-- detect_agent. -/
def detectAgent (port : Nat) (banner : Option String) : Option String :=
  let fromBanner : Option String :=
    match banner with
    | some b =>
      let bl := strLower b
      if sContains bl "openclaw" || sContains bl "open-claw" then
        if sContains bl "clawdbot" || sContains bl "clawd" then
          some "Clawdbot (OpenClaw)"
        else if sContains bl "moldbot" || sContains bl "mold" then
          some "Moldbot (OpenClaw)"
        else some "OpenClaw"
      else if sContains bl "claude" || sContains bl "anthropic" then some "Claude Code"
      else if sContains bl "clawdbot" || sContains bl "clawd" then some "Clawdbot"
      else if sContains bl "moldbot" then some "Moldbot"
      else if sContains bl "ollama" then some "Ollama"
      else if sContains bl "llama" || sContains bl "ggml" then some "Llama.cpp"
      else if sContains bl "openai" then some "OpenAI API"
      else if sContains bl "vllm" then some "vLLM"
      else if sContains bl "text-generation" then some "TGI"
      else if sContains bl "cursor" then some "Cursor"
      else if sContains bl "aider" then some "Aider"
      else if sContains bl "continue" then some "Continue.dev"
      else if sContains bl "copilot" then some "GitHub Copilot"
      else if sContains bl "codeium" then some "Codeium"
      else if sContains bl "tabnine" then some "TabNine"
      else none
    | none => none
  match fromBanner with
  | some s => some s
  | none =>
    if port == 11434 then some "Ollama"
    else if port == 8501 then some "Aider (Streamlit)"
    else if port == 18789 || port == 18793 then some "OpenClaw"
    else none

/-- scan_port: error when the socket address does not parse; otherwise a
connect failure and a connect timeout both yield ok-none, and a success
yields an Open service built from the (sanitized) banner. -/
def scanPort (env : NetEnv) (ip : String) (port : Nat) :
    Except Unit (Option Service) :=
  if env.parseAddrOk ip port then
    match env.connect ip port with
    | ConnectOutcome.success _ =>
      let banner := grabBanner env ip port
      Except.ok (some
        { port := port
          protocol := Protocol.Tcp
          state := PortState.Open
          service_name := identifyService port banner
          banner := banner
          detected_agent := detectAgent port banner })
    | ConnectOutcome.failure => Except.ok none
    | ConnectOutcome.timeout => Except.ok none
  else Except.error ()

/-- The services collected by one chunk of scan_device_ports: handles are
awaited in spawn order and only ok-some results are pushed. -/
def scanPortsChunk (env : NetEnv) (ip : String) (chunk : List Nat) : List Service :=
  chunk.filterMap (fun port =>
    match scanPort env ip port with
    | Except.ok (some service) => some service
    | _ => none)

/-- The service list scan_device_ports accumulates over its chunks of at
most 50 concurrent ports (MAX_CONCURRENT_PORTS). -/
def portScanResults (env : NetEnv) (ip : String) (ports : List Nat) : List Service :=
  ((listChunks 49 ports).map (scanPortsChunk env ip)).flatten

/-- scan_device_ports: the body never propagates an error (per-port errors
are swallowed by the ok-ok-some pattern match). -/
def scanDevicePorts (env : NetEnv) (ip : String) (ports : List Nat) :
    Except Unit (List Service) :=
  Except.ok (portScanResults env ip ports)

/-! ## Identifier (src/network_map/identify.rs) -/

/-- The hostname-rule block of infer_device_type: evaluated only for a
non-empty lowercased hostname; the first matching rule returns, and when
no rule matches control falls through to the port+vendor rules. -/
def hostnameInfer (hostname : String) : Option DeviceType :=
  if sContains hostname "tv" || sContains hostname "webos" || sContains hostname "roku"
      || sContains hostname "firetv" || sContains hostname "chromecast"
      || sContains hostname "androidtv" then
    some DeviceType.SmartTV
  else if sContains hostname "xbox" || sContains hostname "playstation"
      || sContains hostname "ps4" || sContains hostname "ps5"
      || sContains hostname "nintendo"
      || (sContains hostname "switch" && !sContains hostname "switchbot") then
    some DeviceType.GameConsole
  else if sContains hostname "iphone" || sContains hostname "ipad" then
    some DeviceType.Phone
  else if sContains hostname "macbook" || sContains hostname "imac"
      || sContains hostname "-mbp" || sContains hostname "mac-"
      || hostname == "mac" then
    some DeviceType.Computer
  else if sContains hostname "desktop" || sContains hostname "laptop"
      || sContains hostname "-pc" || sContains hostname "workstation" then
    some DeviceType.Computer
  else if sContains hostname "cachyos" || sContains hostname "ubuntu"
      || sContains hostname "fedora" || sContains hostname "arch"
      || sContains hostname "debian" || sContains hostname "linux" then
    some DeviceType.Computer
  else if sContains hostname "yeelink" || sContains hostname "yeelight"
      || sContains hostname "switchbot" || sContains hostname "shelly"
      || sContains hostname "tasmota" || sContains hostname "tuya"
      || sContains hostname "sonoff" || sContains hostname "esp_"
      || sContains hostname "esp32" || sContains hostname "esp8266"
      || sContains hostname "wled" then
    some DeviceType.IoT
  else if sContains hostname "printer" || sContains hostname "brw"
      || sContains hostname "brother" || sContains hostname "epson"
      || sContains hostname "canon" || sContains hostname "hp-" then
    some DeviceType.Printer
  else if sContains hostname "nas" || sContains hostname "synology"
      || sContains hostname "qnap" || sContains hostname "diskstation" then
    some DeviceType.NAS
  else if sContains hostname "router" || sContains hostname "gateway"
      || sContains hostname "-ap" || sContains hostname "unifi"
      || sContains hostname "eero" || sContains hostname "orbi" then
    some DeviceType.Router
  else none

/-- The port+vendor rule block of infer_device_type. -/
def portVendorInfer (ports : List Nat) (vendorLower : String) : DeviceType :=
  if ports.contains 53 && (ports.contains 80 || ports.contains 443) then
    DeviceType.Router
  else if ports.contains 62078 && sContains vendorLower "apple" then
    DeviceType.Phone
  else if sContains vendorLower "apple" then
    if ports.contains 22 || ports.contains 548 then DeviceType.Computer
    else DeviceType.Phone
  else if ports.contains 8008 || ports.contains 8009 || ports.contains 9197 then
    DeviceType.SmartTV
  else if sContains vendorLower "samsung" && !ports.contains 22 then
    DeviceType.SmartTV
  else if sContains vendorLower "lg" && !ports.contains 22 then
    DeviceType.SmartTV
  else if sContains vendorLower "roku" || sContains vendorLower "sonos" then
    DeviceType.SmartTV
  else if sContains vendorLower "nintendo" then
    DeviceType.GameConsole
  else if sContains vendorLower "sony" && !ports.contains 22 then
    DeviceType.GameConsole
  else if (ports.contains 22 || ports.contains 23)
      && (ports.contains 445 || ports.contains 548)
      && (ports.contains 5000 || ports.contains 5001) then
    DeviceType.NAS
  else if sContains vendorLower "synology" || sContains vendorLower "qnap" then
    DeviceType.NAS
  else if ports.contains 9100 || ports.contains 631 then
    DeviceType.Printer
  else if sContains vendorLower "hp" && ports.contains 80 && !ports.contains 22 then
    DeviceType.Printer
  else if ports.contains 22 || ports.contains 3389 then
    if sContains vendorLower "dell" || sContains vendorLower "lenovo"
        || sContains vendorLower "hp" then
      DeviceType.Laptop
    else DeviceType.Computer
  else if sContains vendorLower "espressif" || sContains vendorLower "amazon" then
    DeviceType.IoT
  else if (sContains vendorLower "tp-link" || sContains vendorLower "netgear"
      || sContains vendorLower "asus" || sContains vendorLower "ubiquiti"
      || sContains vendorLower "cisco")
      && (ports.contains 80 || ports.contains 443) then
    DeviceType.Router
  else if sContains vendorLower "samsung" || sContains vendorLower "xiaomi"
      || sContains vendorLower "google" || sContains vendorLower "huawei" then
    DeviceType.Phone
  else if sContains vendorLower "raspberry" then
    DeviceType.Computer
  else
    DeviceType.Unknown

/-- infer_device_type. -/
def inferDeviceType (device : Device) : DeviceType :=
  let ports := device.services.map (·.port)
  let vendorLower := strLower (device.vendor.getD "")
  let hostname := strLower (device.hostname.getD "")
  if hostname ≠ "" then
    match hostnameInfer hostname with
    | some t => t
    | none => portVendorInfer ports vendorLower
  else portVendorInfer ports vendorLower

/-- identify_device: set the vendor if unset, recompute the device type,
and collect the detected agents from the services. -/
def identifyDevice (device : Device) : Device :=
  let device :=
    { device with
        vendor := match device.vendor with
          | none => lookupVendor device.mac_address
          | some v => some v }
  { device with
      device_type := inferDeviceType device
      detected_agents := device.services.filterMap (·.detected_agent) }

/-- identify_all_devices. -/
def identifyAllDevices (devices : List Device) : List Device :=
  devices.map identifyDevice

/-! ## Discoverer (src/network_map/discovery.rs)

The OS collaborators (local_ip_address crate, the arp and netstat
commands, std IpAddr parsing) are the environment.  Parsing of their
text output is embedded from the source. -/

/-- Outcome of one parse_arp_line call: a parsed (ip, mac) pair, a None
return, or a panic of the Rust process (the line[ip_start..ip_end]
slice with ip_end below ip_start). -/
inductive LineParse
  | parsed (ip mac : String)
  | skipped
  | crash
deriving DecidableEq, Repr

/-- A computation that either returns a value or aborts the process
with a panic. -/
inductive OrCrash (α : Type)
  | val (a : α)
  | crash
deriving DecidableEq, Repr

/-- parse_arp_line, with the std IpAddr parse supplied as `ipOk`.  When
the first closing parenthesis precedes the first opening one the
line[ip_start..ip_end] slice panics and the process aborts: that is the
crash outcome, distinct from the None returns. -/
def parseArpLine (ipOk : String → Bool) (line : String) : LineParse :=
  let l := line.data
  match findCharIdx l '(' with
  | none => LineParse.skipped
  | some parOpen =>
    match findCharIdx l ')' with
    | none => LineParse.skipped
    | some parClose =>
      let ipStart := parOpen + 1
      if parClose < ipStart then LineParse.crash
      else
        let ip := String.mk ((l.drop ipStart).take (parClose - ipStart))
        match findSubIdx l " at ".data with
        | none => LineParse.skipped
        | some atPos =>
          let afterAt := l.drop (atPos + 4)
          let macEnd := (findCharIdx afterAt ' ').getD afterAt.length
          let mac := String.mk (afterAt.take macEnd)
          if ipOk ip then LineParse.parsed ip mac else LineParse.skipped

/-- The accumulation loop of parse_arp_cache over the parsed (ip, mac)
pairs, carrying the set of already-seen uppercased MACs. -/
def arpFold (now : Nat) : List (String × String) → List String → List Device
  | [], _ => []
  | (ip, mac) :: rest, seen =>
    if mac == "(incomplete)" || mac == "ff:ff:ff:ff:ff:ff" then
      arpFold now rest seen
    else if seen.contains (strUpper mac) then arpFold now rest seen
    else Device.new (strUpper mac) ip now :: arpFold now rest (strUpper mac :: seen)

/-- The (ip, mac) pairs of the lines parse_arp_line accepts. -/
def parsedPairs (ipOk : String → Bool) (stdout : String) : List (String × String) :=
  (rustLines stdout).filterMap (fun line =>
    match parseArpLine ipOk line with
    | LineParse.parsed ip mac => some (ip, mac)
    | _ => none)

/-- parse_arp_cache applied to the text the arp command printed: the
whole call aborts when any line panics parse_arp_line, and otherwise
folds the parsed pairs with MAC deduplication. -/
def parseArpText (ipOk : String → Bool) (now : Nat) (stdout : String) :
    OrCrash (List Device) :=
  if (rustLines stdout).any (fun line => parseArpLine ipOk line == LineParse.crash) then
    OrCrash.crash
  else OrCrash.val (arpFold now (parsedPairs ipOk stdout) [])

/-- Dotted-quad IPv4 validity: four runs of digits, each without leading
zeros and at most 255.  Models the accepting set of Rust std IpAddr
parsing on the IPv4 addresses the ARP and route outputs contain; used to
instantiate the `ipOk` environment at concrete inputs. -/
def isValidIpv4Octet (p : List Char) : Bool :=
  p ≠ [] && p.all (fun c => '0' ≤ c && c ≤ '9')
    && (p.length == 1 || p.head? != some '0')
    && p.foldl (fun n c => n * 10 + (c.toNat - '0'.toNat)) 0 ≤ 255

def isValidIpv4 (s : String) : Bool :=
  let parts := s.data.splitOnP (· == '.')
  parts.length == 4 && parts.all isValidIpv4Octet

/-- Environment of discover_devices: results of the local-ip crate call,
the /24 network parse, the arp -a and netstat -nr commands, arp -n
queries, and std IpAddr parsing. -/
structure DiscEnv where
  localIpRes : Except Unit String
  parseNetworkOk : String → Bool
  arpOutput : Except Unit String
  routeOutput : Except Unit String
  arpNOutput : String → Option String
  ipOk : String → Bool
  now : Nat

/-- get_local_network_info: the local-ip lookup and the /24 network parse
are both propagated with the question-mark operator. -/
def getLocalNetworkInfo (env : DiscEnv) : Except Unit String := do
  let ip ← env.localIpRes
  if env.parseNetworkOk ip then pure ip else Except.error ()

/-- parse_arp_cache: fails exactly when running the arp command failed,
and aborts when a line panics parse_arp_line. -/
def parseArpCacheE (env : DiscEnv) : OrCrash (Except Unit (List Device)) :=
  match env.arpOutput with
  | Except.error e => OrCrash.val (Except.error e)
  | Except.ok out =>
    match parseArpText env.ipOk env.now out with
    | OrCrash.crash => OrCrash.crash
    | OrCrash.val devices => OrCrash.val (Except.ok devices)

/-- The line scan of get_default_gateway: the first route line whose
first whitespace field is "default" and whose second parses as an IP. -/
def findGatewayText (ipOk : String → Bool) (stdout : String) : Option String :=
  ((rustLines stdout).filterMap (fun line =>
    let parts := splitWs line
    if parts.length ≥ 2 && parts.headI == "default" && ipOk (parts.getD 1 "") then
      some (parts.getD 1 "")
    else none)).head?

/-- get_default_gateway: fails exactly when running netstat failed. -/
def getDefaultGateway (env : DiscEnv) : Except Unit (Option String) := do
  let out ← env.routeOutput
  pure (findGatewayText env.ipOk out)

/-- get_mac_for_ip: a failed arp -n command is swallowed into none, a
None parse is none, and a panic in parse_arp_line aborts the process. -/
def getMacForIp (env : DiscEnv) (ip : String) : OrCrash (Option String) :=
  match env.arpNOutput ip with
  | none => OrCrash.val none
  | some out =>
    match parseArpLine env.ipOk out with
    | LineParse.parsed _ mac => OrCrash.val (some mac)
    | LineParse.skipped => OrCrash.val none
    | LineParse.crash => OrCrash.crash

/-- The final loop of discover_devices: tag the device whose IP equals
the local IP with the "This device" hostname. -/
def labelSelf (localIp : String) (devices : List Device) : List Device :=
  devices.map (fun d =>
    if d.ip_address == localIp then { d with hostname := some "This device" } else d)

/-- discover_devices: local-IP, ARP-cache and route-table failures are
propagated as errors in that order, a parse_arp_line panic (in the ARP
cache or in the gateway lookup) aborts the process, and otherwise the
gateway is appended when missing and the local device labelled.  The
progress sends on the optional channel do not affect the returned value
and are modelled with the coordinator. -/
def discoverDevices (env : DiscEnv) : OrCrash (Except Unit (List Device)) :=
  match getLocalNetworkInfo env with
  | Except.error e => OrCrash.val (Except.error e)
  | Except.ok localIp =>
    match parseArpCacheE env with
    | OrCrash.crash => OrCrash.crash
    | OrCrash.val (Except.error e) => OrCrash.val (Except.error e)
    | OrCrash.val (Except.ok devices) =>
      match getDefaultGateway env with
      | Except.error e => OrCrash.val (Except.error e)
      | Except.ok gateway =>
        match gateway with
        | some gw =>
          if devices.any (fun d => d.ip_address == gw) then
            OrCrash.val (Except.ok (labelSelf localIp devices))
          else
            match getMacForIp env gw with
            | OrCrash.crash => OrCrash.crash
            | OrCrash.val macOpt =>
              let gwMac := macOpt.getD "00:00:00:00:00:00"
              let gwDevice :=
                { Device.new gwMac gw env.now with device_type := DeviceType.Router }
              OrCrash.val (Except.ok (labelSelf localIp (devices ++ [gwDevice])))
        | none => OrCrash.val (Except.ok (labelSelf localIp devices))

/-! ## ScanCoordinator (src/app.rs)

The scan-related slice of the App state.  Two ghost fields instrument
the model for specification purposes only: scans_started counts the
scan threads spawned by start_device_scan, and completes_delivered
records which of those scans had their Complete event consumed by
check_device_scan_progress.  device_scan_receiver holds the ghost id of
the scan whose channel the App currently listens to (Some/None mirrors
the source field). -/

structure App where
  device_scan_progress : Option ScanProgress
  device_scan_receiver : Option Nat
  devices : List Device
  status_message : Option String
  scans_started : Nat
  completes_delivered : List Nat
deriving DecidableEq, Repr

def App.init : App :=
  { device_scan_progress := none
    device_scan_receiver := none
    devices := []
    status_message := none
    scans_started := 0
    completes_delivered := [] }

/-- The phase-to-ordinal match inside check_device_scan_progress. -/
def phaseOrd : ScanPhase → Nat
  | ScanPhase.Discovery => 0
  | ScanPhase.PortScan => 1
  | ScanPhase.Identification => 2
  | ScanPhase.Complete => 3

/-- The progress value stored by start_device_scan when it launches a scan. -/
def initialScanProgress : ScanProgress :=
  { phase := ScanPhase.Discovery
    devices_found := 0
    current_device := none
    ports_scanned := 0
    total_ports := 0 }

/-- One iteration of the try_recv loop of check_device_scan_progress on
event `e`; `scanned` is the content of the SCANNED_DEVICES cell.
Returns the new state, whether the loop keeps receiving (false after the
return on Complete), and whether the event was applied to the state. -/
def applyEvent (st : App) (scanned : Option (List Device)) (e : ScanProgress) :
    App × Bool × Bool :=
  if e.phase == ScanPhase.Complete then
    let st1 :=
      match scanned with
      | some ds => { st with devices := ds }
      | none => st
    let st2 :=
      { st1 with
          device_scan_progress := none
          device_scan_receiver := none
          status_message := some ("Found " ++ toString st1.devices.length ++ " devices")
          completes_delivered :=
            match st1.device_scan_receiver with
            | some i => i :: st1.completes_delivered
            | none => st1.completes_delivered }
    (st2, false, true)
  else
    let isStale : Bool :=
      match st.device_scan_progress with
      | some current => decide (phaseOrd e.phase < phaseOrd current.phase)
      | none => false
    if isStale then (st, true, false)
    else ({ st with device_scan_progress := some e }, true, true)

/-- The try_recv loop over the queue of pending progress events, also
reporting for each consumed event whether it was applied. -/
def runProgressLoop (st : App) (scanned : Option (List Device)) :
    List ScanProgress → App × List Bool
  | [] => (st, [])
  | e :: rest =>
    match applyEvent st scanned e with
    | (st2, cont, applied) =>
      if cont then
        let (st3, flags) := runProgressLoop st2 scanned rest
        (st3, applied :: flags)
      else (st2, [applied])

/-- check_device_scan_progress: the loop only runs while a receiver is held. -/
def checkDeviceScanProgress (st : App) (scanned : Option (List Device))
    (events : List ScanProgress) : App :=
  match st.device_scan_receiver with
  | some _ => (runProgressLoop st scanned events).1
  | none => st

/-- start_device_scan: returns immediately when a progress value is
present (already scanning); otherwise spawns the scan thread, keeps its
receiver, and stores the initial Discovery progress. -/
def appStartScan (st : App) : App :=
  if st.device_scan_progress.isSome then st
  else
    { st with
        device_scan_progress := some initialScanProgress
        device_scan_receiver := some st.scans_started
        scans_started := st.scans_started + 1 }

/-- cancel_device_scan. -/
def appCancelScan (st : App) : App :=
  { st with device_scan_progress := none, device_scan_receiver := none }

/-- The coordinator operations a caller can interleave. -/
inductive AppOp
  | start
  | cancel
  | check (scanned : Option (List Device)) (events : List ScanProgress)

def appStep (st : App) : AppOp → App
  | AppOp.start => appStartScan st
  | AppOp.cancel => appCancelScan st
  | AppOp.check scanned events => checkDeviceScanProgress st scanned events

def runOps (st : App) (ops : List AppOp) : App :=
  ops.foldl appStep st

/-- A scan with ghost id `i` is in flight: its thread was spawned and its
Complete event has not been consumed by the coordinator. -/
def scanInFlight (st : App) (i : Nat) : Prop :=
  i < st.scans_started ∧ i ∉ st.completes_delivered

/-! ## Concrete instantiation data used by the claim theorems -/

/-- A progress event with a fixed representative payload, used to build
event traces. -/
def traceEvent (p : ScanPhase) : ScanProgress :=
  { phase := p
    devices_found := 1
    current_device := none
    ports_scanned := 2
    total_ports := 3 }

/-- The out-of-order trace Discovery, PortScan, Discovery, Identification,
PortScan, Complete. -/
def outOfOrderTrace : List ScanProgress :=
  [traceEvent ScanPhase.Discovery, traceEvent ScanPhase.PortScan,
   traceEvent ScanPhase.Discovery, traceEvent ScanPhase.Identification,
   traceEvent ScanPhase.PortScan, traceEvent ScanPhase.Complete]

/-- A coordinator state in the middle of a scan: last accepted phase is
PortScan and the receiver of scan 0 is held. -/
def witnessApp : App :=
  { App.init with
      device_scan_progress := some (traceEvent ScanPhase.PortScan)
      device_scan_receiver := some 0
      scans_started := 1 }

/-- A discovery environment in which self-IP resolution fails while the
ARP table and the route table are both readable. -/
def cexDiscEnv : DiscEnv :=
  { localIpRes := Except.error ()
    parseNetworkOk := fun _ => true
    arpOutput := Except.ok "? (192.168.1.7) at aa:bb:cc:dd:ee:01 on en0 ifscope [ethernet]"
    routeOutput := Except.ok ""
    arpNOutput := fun _ => none
    ipOk := isValidIpv4
    now := 0 }

/-- A discovery environment in which the local-IP lookup, the ARP table
and the route table all succeed and no line panics the parser. -/
def goodDiscEnv : DiscEnv :=
  { localIpRes := Except.ok "192.168.1.7"
    parseNetworkOk := fun _ => true
    arpOutput := Except.ok "? (192.168.1.7) at aa:bb:cc:dd:ee:01 on en0 ifscope [ethernet]"
    routeOutput := Except.ok "default 192.168.1.1 UGScg en0"
    arpNOutput := fun _ => none
    ipOk := isValidIpv4
    now := 0 }

/-- A network environment in which every connect attempt times out. -/
def envTimeout : NetEnv :=
  { parseAddrOk := fun _ _ => true
    connect := fun _ _ => ConnectOutcome.timeout }

/-- An open SSH service with no banner. -/
def sshSvc : Service :=
  { port := 22
    protocol := Protocol.Tcp
    state := PortState.Open
    service_name := some "SSH"
    banner := none
    detected_agent := none }

/-- A device whose hostname matches a SmartTV hostname rule while SSH(22)
is open. -/
def livingRoomTv : Device :=
  { Device.new "AA:BB:CC:DD:EE:02" "192.168.1.20" 0 with
      hostname := some "living-room-tv"
      services := [sshSvc] }

/-- A device two of whose services carry the same detected agent. -/
def dupAgentDevice : Device :=
  { Device.new "AA:BB:CC:DD:EE:01" "192.168.1.10" 0 with
      services :=
        [{ port := 11434, protocol := Protocol.Tcp, state := PortState.Open,
           service_name := some "Ollama", banner := none,
           detected_agent := some "Ollama" },
         { port := 8080, protocol := Protocol.Tcp, state := PortState.Open,
           service_name := some "HTTP Alt", banner := none,
           detected_agent := some "Ollama" },
         { port := 22, protocol := Protocol.Tcp, state := PortState.Open,
           service_name := some "SSH", banner := none,
           detected_agent := none }] }

/-- Whether the lowercased banner matches any fingerprint of the banner
branch of detect_agent. -/
def noBannerFingerprint (b : String) : Bool :=
  let bl := strLower b
  !(sContains bl "openclaw" || sContains bl "open-claw"
    || sContains bl "claude" || sContains bl "anthropic"
    || sContains bl "clawdbot" || sContains bl "clawd"
    || sContains bl "moldbot" || sContains bl "ollama"
    || sContains bl "llama" || sContains bl "ggml"
    || sContains bl "openai" || sContains bl "vllm"
    || sContains bl "text-generation" || sContains bl "cursor"
    || sContains bl "aider" || sContains bl "continue"
    || sContains bl "copilot" || sContains bl "codeium"
    || sContains bl "tabnine")

/-- Whether a parsed (ip, mac) pair passes the two literal MAC filters of
parse_arp_cache (the "(incomplete)" placeholder and the lowercase
broadcast string). -/
def arpKeep (p : String × String) : Bool :=
  !(p.2 == "(incomplete)" || p.2 == "ff:ff:ff:ff:ff:ff")

/-- The parsed ARP pairs of an input that survive the two literal MAC
filters of parse_arp_cache. -/
def eligiblePairs (ipOk : String → Bool) (text : String) : List (String × String) :=
  (parsedPairs ipOk text).filter arpKeep

/-- The ARP-line broadcast counterexample input: a parseable line whose
MAC is the broadcast address written in uppercase. -/
def broadcastLine : String :=
  "? (192.168.1.255) at FF:FF:FF:FF:FF:FF on en0"

/-- A three-line ARP input with a duplicate MAC in different casing and
under a different IP. -/
def dupMacArpText : String :=
  "a (10.0.0.1) at aa:bb:cc:dd:ee:01 on en0\nb (10.0.0.2) at AA:BB:CC:DD:EE:01 on en0\nc (10.0.0.3) at 11:22:33:44:55:66 on en0"

/-- The device list the parse step produces on dupMacArpText. -/
def dupMacDevices : List Device :=
  [Device.new "AA:BB:CC:DD:EE:01" "10.0.0.1" 7,
   Device.new "11:22:33:44:55:66" "10.0.0.3" 7]

/-- An ARP line whose first closing parenthesis precedes its first
opening one: parse_arp_line panics on it. -/
def crashingArpLine : String :=
  "bad) host (10.0.0.9) at aa:bb:cc:dd:ee:09 on en0"

/-! ## Claim theorems -/

/-- C4: device-type inference is an ordered cascade in which the hostname
rules are evaluated before all port+vendor rules and the first match
wins: whenever the lowercased hostname is non-empty and matches a
hostname rule, infer_device_type returns that rule's type whatever the
open ports are; in particular a device with hostname "living-room-tv"
and SSH(22) open classifies as SmartTV. -/
theorem claim4_hostname_cascade_priority :
    (∀ (d : Device) (t : DeviceType),
      strLower (d.hostname.getD "") ≠ "" →
      hostnameInfer (strLower (d.hostname.getD "")) = some t →
      inferDeviceType d = t) ∧
    inferDeviceType livingRoomTv = DeviceType.SmartTV := by
  constructor
  · intro d t hne hmatch
    unfold inferDeviceType
    rw [if_pos hne, hmatch]
  · decide

/-- Witness for C4 at the living-room-tv device. -/
theorem claim4_witness : inferDeviceType livingRoomTv = DeviceType.SmartTV :=
  claim4_hostname_cascade_priority.1 livingRoomTv DeviceType.SmartTV
    (by decide) (by decide)

/-- C6 counterexample: a device with two services both carrying detected
agent "Ollama" ends up with a duplicated detected_agents list, so the
field is not duplicate-free. -/
theorem claim6_counterexample :
    (identifyDevice dupAgentDevice).detected_agents = ["Ollama", "Ollama"] ∧
    ¬ (identifyDevice dupAgentDevice).detected_agents.Nodup := by
  constructor
  · decide
  · decide

/-- C6 amended: after identify_device the detected_agents field equals
the detected_agent values of the services in service order, dropping
absent values but keeping duplicates (a list, not a set). -/
theorem claim6_detected_agents_list (d : Device) :
    (identifyDevice d).detected_agents = d.services.filterMap (·.detected_agent) := rfl

/-- The device-type inference reads only the services, vendor and
hostname fields. -/
theorem inferDeviceType_congr (d e : Device)
    (hs : d.services = e.services) (hv : d.vendor = e.vendor)
    (hh : d.hostname = e.hostname) :
    inferDeviceType d = inferDeviceType e := by
  unfold inferDeviceType
  rw [hs, hv, hh]

/-- C9: identify_device is deterministic and idempotent: applying it a
second time to the device produced by the first application changes
nothing (so device type, vendor and detected agents are all stable). -/
theorem claim9_identify_idempotent (d : Device) :
    identifyDevice (identifyDevice d) = identifyDevice d := by
  unfold identifyDevice
  cases hv : d.vendor <;> cases hl : lookupVendor d.mac_address <;>
    simp [hv, hl] <;> exact inferDeviceType_congr _ _ rfl rfl rfl

/-- C8 counterexample: the banner "Claude Ollama" contains "Ollama", yet
detect_agent returns "Claude Code" because the Claude fingerprint is
checked before the Ollama one — so a banner containing "Ollama" does not
always yield "Ollama". -/
theorem claim8_counterexample :
    sContains "Claude Ollama" "Ollama" = true ∧
    detectAgent 80 (some "Claude Ollama") = some "Claude Code" := by
  constructor
  · decide
  · decide

/-- C8 amended: agent detection is banner-first through an ordered
fingerprint list with a port-number fallback: a banner containing
"ollama" case-insensitively and none of the earlier fingerprints
(openclaw, open-claw, claude, anthropic, clawdbot, clawd, moldbot)
yields "Ollama" on every port; a banner containing both "openclaw" and
"clawdbot" yields "Clawdbot (OpenClaw)"; a banner matching no
fingerprint behaves like an absent banner, and with an absent banner
the port table supplies 11434 to Ollama, 8501 to Aider (Streamlit), and
18789/18793 to OpenClaw. -/
theorem claim8_agent_detection :
    (∀ (port : Nat) (b : String),
      sContains (strLower b) "ollama" = true →
      sContains (strLower b) "openclaw" = false →
      sContains (strLower b) "open-claw" = false →
      sContains (strLower b) "claude" = false →
      sContains (strLower b) "anthropic" = false →
      sContains (strLower b) "clawdbot" = false →
      sContains (strLower b) "clawd" = false →
      sContains (strLower b) "moldbot" = false →
      detectAgent port (some b) = some "Ollama") ∧
    (∀ (port : Nat) (b : String),
      sContains (strLower b) "openclaw" = true →
      sContains (strLower b) "clawdbot" = true →
      detectAgent port (some b) = some "Clawdbot (OpenClaw)") ∧
    (∀ (port : Nat) (b : String),
      noBannerFingerprint b = true →
      detectAgent port (some b) = detectAgent port none) ∧
    detectAgent 11434 none = some "Ollama" ∧
    detectAgent 8501 none = some "Aider (Streamlit)" ∧
    detectAgent 18789 none = some "OpenClaw" ∧
    detectAgent 18793 none = some "OpenClaw" := by
  refine ⟨?_, ?_, ?_, by decide, by decide, by decide, by decide⟩
  · intro port b h1 h2 h3 h4 h5 h6 h7 h8
    simp [detectAgent, h1, h2, h3, h4, h5, h6, h7, h8]
  · intro port b h1 h2
    simp [detectAgent, h1, h2]
  · intro port b h
    simp only [noBannerFingerprint, Bool.not_eq_true', Bool.or_eq_false_iff,
      and_assoc] at h
    obtain ⟨h1, h2, h3, h4, h5, h6, h7, h8, h9, h10, h11, h12, h13, h14,
      h15, h16, h17, h18, h19⟩ := h
    simp [detectAgent, h1, h2, h3, h4, h5, h6, h7, h8, h9, h10, h11, h12,
      h13, h14, h15, h16, h17, h18, h19]

/-- Witness for C8 at concrete banners and ports. -/
theorem claim8_witness :
    detectAgent 9999 (some "Ollama is running") = some "Ollama" ∧
    detectAgent 80 (some "openclaw clawdbot ready") = some "Clawdbot (OpenClaw)" ∧
    detectAgent 11434 (some "xyz") = detectAgent 11434 none :=
  ⟨claim8_agent_detection.1 9999 "Ollama is running" (by decide) (by decide)
      (by decide) (by decide) (by decide) (by decide) (by decide) (by decide),
   claim8_agent_detection.2.1 80 "openclaw clawdbot ready" (by decide) (by decide),
   claim8_agent_detection.2.2.1 11434 "xyz" (by decide)⟩

/-- Every service collected by the port scan of one device comes from a
port whose connect attempt succeeded. -/
theorem mem_portScanResults_connect {env : NetEnv} {ip : String}
    {ports : List Nat} {s : Service} (h : s ∈ portScanResults env ip ports) :
    ∃ raw, env.connect ip s.port = ConnectOutcome.success raw := by
  unfold portScanResults at h
  rw [List.mem_flatten] at h
  obtain ⟨l, hl, hs⟩ := h
  rw [List.mem_map] at hl
  obtain ⟨chunk, hchunk, rfl⟩ := hl
  unfold scanPortsChunk at hs
  rw [List.mem_filterMap] at hs
  obtain ⟨port, hport, hscan⟩ := hs
  unfold scanPort at hscan
  by_cases hpa : env.parseAddrOk ip port = true
  · rw [if_pos hpa] at hscan
    cases hc : env.connect ip port with
    | success raw =>
      rw [hc] at hscan
      simp only [Option.some.injEq] at hscan
      subst hscan
      exact ⟨raw, hc⟩
    | failure => rw [hc] at hscan; cases hscan
    | timeout => rw [hc] at hscan; cases hscan
  · rw [if_neg hpa] at hscan
    cases hscan

/-- C5: a connect failure and a connect timeout are treated identically:
scan_port yields ok-none, the device port scan returns no error, and no
service for that port appears in the collected service list. -/
theorem claim5_timeout_as_closed (env : NetEnv) (ip : String) (port : Nat)
    (ports : List Nat)
    (h : env.connect ip port = ConnectOutcome.failure ∨
         env.connect ip port = ConnectOutcome.timeout) :
    (env.parseAddrOk ip port = true → scanPort env ip port = Except.ok none) ∧
    (scanDevicePorts env ip ports).isOk = true ∧
    ∀ s ∈ portScanResults env ip ports, s.port ≠ port := by
  refine ⟨?_, rfl, ?_⟩
  · intro hpa
    unfold scanPort
    rw [if_pos hpa]
    rcases h with h | h <;> rw [h]
  · intro s hs hp
    obtain ⟨raw, hraw⟩ := mem_portScanResults_connect hs
    rw [hp] at hraw
    rcases h with h | h <;> rw [h] at hraw <;> cases hraw

/-- Witness for C5 in an environment where every connect times out. -/
theorem claim5_witness :
    scanPort envTimeout "10.0.0.5" 22 = Except.ok none ∧
    (scanDevicePorts envTimeout "10.0.0.5" COMMON_PORTS).isOk = true ∧
    ∀ s ∈ portScanResults envTimeout "10.0.0.5" COMMON_PORTS, s.port ≠ 22 := by
  have h := claim5_timeout_as_closed envTimeout "10.0.0.5" 22 COMMON_PORTS (Or.inr rfl)
  exact ⟨h.1 rfl, h.2.1, h.2.2⟩

set_option maxRecDepth 8192 in
/-- Every key in the static OUI table has six hex characters. -/
theorem ouiPairs_key_length : ∀ p ∈ ouiPairs, p.1.length = 6 := by decide

/-- A successful table lookup forces the looked-up key to length six. -/
theorem ouiGet_length {k v : String} (h : ouiGet k = some v) : k.length = 6 := by
  unfold ouiGet at h
  cases hf : ouiPairs.reverse.find? (fun p => p.1 == k) with
  | none => rw [hf] at h; cases h
  | some p =>
    have hmem : p ∈ ouiPairs.reverse := List.mem_of_find?_eq_some hf
    have hpk : p.1 = k := by simpa using List.find?_some hf
    rw [List.mem_reverse] at hmem
    rw [← hpk]
    exact ouiPairs_key_length p hmem

/-- C10: a MAC whose normalized OUI prefix (six characters) misses the
static table and whose first octet's second hex nibble is 2, 6, A or E
resolves to "Private/Randomized"; and the table is consulted first, so a
table hit always wins over the locally-administered check. -/
theorem claim10_randomized_fallback :
    (∀ mac : String,
      6 ≤ (normalizeMac mac).length →
      ouiGet (normalizeMac mac) = none →
      ((normalizeMac mac).data.get? 1 = some '2' ∨
       (normalizeMac mac).data.get? 1 = some '6' ∨
       (normalizeMac mac).data.get? 1 = some 'A' ∨
       (normalizeMac mac).data.get? 1 = some 'E') →
      lookupVendor mac = some "Private/Randomized") ∧
    (∀ (mac v : String),
      ouiGet (normalizeMac mac) = some v → lookupVendor mac = some v) := by
  constructor
  · intro mac hlen hget hnib
    simp only [lookupVendor]
    rw [if_neg (by omega), hget]
    rcases hnib with h | h | h | h <;> rw [h] <;> rfl
  · intro mac v hget
    have h6 := ouiGet_length hget
    simp only [lookupVendor]
    rw [if_neg (by omega), hget]

/-- Witness for C10: a randomized MAC absent from the table, and a
locally-administered prefix that the table nevertheless knows. -/
theorem claim10_witness :
    lookupVendor "A2:11:22:33:44:55" = some "Private/Randomized" ∧
    lookupVendor "52:54:0B:00:00:00" = some "Realtek" :=
  ⟨claim10_randomized_fallback.1 "A2:11:22:33:44:55" (by decide) (by decide)
      (Or.inl (by decide)),
   claim10_randomized_fallback.2 "52:54:0B:00:00:00" "Realtek" (by decide)⟩

/-- C1: the coordinator progress loop discards an incoming non-Complete
event whose phase ordinal is strictly below the ordinal of the last
accepted progress value (the state is left untouched), applies an event
with an equal or larger ordinal, and always applies a Complete event
immediately, ending the scan; on the trace Discovery, PortScan,
Discovery, Identification, PortScan, Complete exactly events 1, 2, 4
and 6 are applied. -/
theorem claim1_stale_event_suppression :
    (∀ (st : App) (scanned : Option (List Device)) (e cur : ScanProgress),
      st.device_scan_progress = some cur →
        (e.phase ≠ ScanPhase.Complete →
          phaseOrd e.phase < phaseOrd cur.phase →
            (applyEvent st scanned e).1 = st ∧
            (applyEvent st scanned e).2.2 = false) ∧
        (e.phase ≠ ScanPhase.Complete →
          phaseOrd cur.phase ≤ phaseOrd e.phase →
            (applyEvent st scanned e).1.device_scan_progress = some e ∧
            (applyEvent st scanned e).2.2 = true) ∧
        (e.phase = ScanPhase.Complete →
          (applyEvent st scanned e).2.2 = true ∧
          (applyEvent st scanned e).2.1 = false ∧
          (applyEvent st scanned e).1.device_scan_progress = none ∧
          (applyEvent st scanned e).1.device_scan_receiver = none)) ∧
    (runProgressLoop (appStartScan App.init) (some []) outOfOrderTrace).2
      = [true, true, false, true, false, true] := by
  constructor
  · intro st scanned e cur hcur
    refine ⟨?_, ?_, ?_⟩
    · intro hne hlt
      simp [applyEvent, hcur, hne, hlt]
    · intro hne hge
      simp [applyEvent, hcur, hne, Nat.not_lt.2 hge]
    · intro he
      simp [applyEvent, he]
  · decide

/-- Witness for C1: from a state whose last accepted phase is PortScan,
a late Discovery event is discarded, an Identification event is applied
and a Complete event clears the scan. -/
theorem claim1_witness :
    (applyEvent witnessApp none (traceEvent ScanPhase.Discovery)).1 = witnessApp ∧
    (applyEvent witnessApp none (traceEvent ScanPhase.Discovery)).2.2 = false ∧
    (applyEvent witnessApp none (traceEvent ScanPhase.Identification)).1.device_scan_progress
      = some (traceEvent ScanPhase.Identification) ∧
    (applyEvent witnessApp none (traceEvent ScanPhase.Complete)).1.device_scan_progress
      = none := by
  have h := claim1_stale_event_suppression.1 witnessApp none
  have h1 := (h (traceEvent ScanPhase.Discovery) (traceEvent ScanPhase.PortScan) rfl).1
    (by decide) (by decide)
  have h2 := (h (traceEvent ScanPhase.Identification) (traceEvent ScanPhase.PortScan) rfl).2.1
    (by decide) (by decide)
  have h3 := (h (traceEvent ScanPhase.Complete) (traceEvent ScanPhase.PortScan) rfl).2.2 rfl
  exact ⟨h1.1, h1.2, h2.1, h3.2.2.1⟩

/-- C2 counterexample: after start followed by cancel, scan 0 has been
spawned and its Complete event was never consumed, so a scan is still in
flight by the claim's definition, yet invoking start-scan spawns a
second scan (the started counter increments and a new receiver is
installed). -/
theorem claim2_counterexample :
    scanInFlight (runOps App.init [AppOp.start, AppOp.cancel]) 0 ∧
    (appStartScan (runOps App.init [AppOp.start, AppOp.cancel])).scans_started
      = (runOps App.init [AppOp.start, AppOp.cancel]).scans_started + 1 ∧
    (appStartScan (runOps App.init [AppOp.start, AppOp.cancel])).device_scan_receiver
      = some 1 :=
  ⟨⟨by decide, by decide⟩, rfl, rfl⟩

/-- C2 amended: start-scan is a no-op in every state in which a progress
value is present, i.e. a scan was started and has neither completed nor
been cancelled; after cancel_device_scan clears the progress value a
second scan can start even though the first never delivered Complete. -/
theorem claim2_single_flight_guard (st : App)
    (h : st.device_scan_progress.isSome = true) :
    appStartScan st = st := by
  unfold appStartScan
  rw [if_pos h]

/-- Witness for C2 at a mid-scan state. -/
theorem claim2_witness : appStartScan witnessApp = witnessApp :=
  claim2_single_flight_guard witnessApp rfl

/-- C3 counterexample: an environment in which self-IP resolution fails
while the ARP table is perfectly readable (it even parses to a device)
makes discover_devices return an error instead of the device list. -/
theorem claim3_counterexample :
    cexDiscEnv.localIpRes = Except.error () ∧
    cexDiscEnv.arpOutput.isOk = true ∧
    parseArpCacheE cexDiscEnv
      = OrCrash.val (Except.ok [Device.new "AA:BB:CC:DD:EE:01" "192.168.1.7" 0]) ∧
    discoverDevices cexDiscEnv = OrCrash.val (Except.error ()) :=
  ⟨rfl, rfl, rfl, rfl⟩

/-- C3 amended: on every run that does not panic (no ARP-cache or
gateway-lookup line whose first closing parenthesis precedes its first
opening one), discover_devices returns a device list exactly when the
local-IP resolution (with its /24 parse), the ARP-table command and the
route-table command all succeed — so self-IP failure is fatal, while a
missing gateway degrades gracefully inside the success case. -/
theorem claim3_error_conditions (env : DiscEnv)
    (hnc : discoverDevices env ≠ OrCrash.crash) :
    (∃ ds, discoverDevices env = OrCrash.val (Except.ok ds)) ↔
      (getLocalNetworkInfo env).isOk = true ∧
      env.arpOutput.isOk = true ∧
      env.routeOutput.isOk = true := by
  cases hl : getLocalNetworkInfo env with
  | error e =>
    cases e
    simp [discoverDevices, hl, Except.isOk, Except.toBool]
  | ok localIp =>
    cases ha : env.arpOutput with
    | error e =>
      cases e
      simp [discoverDevices, parseArpCacheE, hl, ha, Except.isOk, Except.toBool]
    | ok arpText =>
      cases hp : parseArpText env.ipOk env.now arpText with
      | crash =>
        exact absurd (by simp [discoverDevices, parseArpCacheE, hl, ha, hp]) hnc
      | val devices =>
        cases hr : env.routeOutput with
        | error e =>
          cases e
          simp [discoverDevices, parseArpCacheE, getDefaultGateway, hl, ha, hp,
            hr, Except.isOk, Except.toBool, Except.bind, bind, pure, Except.pure]
        | ok routeText =>
          cases hg : findGatewayText env.ipOk routeText with
          | none =>
            simp [discoverDevices, parseArpCacheE, getDefaultGateway, hl, ha,
              hp, hr, hg, Except.isOk, Except.toBool, Except.bind, bind, pure,
              Except.pure]
          | some gw =>
            by_cases hin : devices.any (fun d => d.ip_address == gw) = true
            · simp [discoverDevices, parseArpCacheE, getDefaultGateway, hl, ha,
                hp, hr, hg, hin, Except.isOk, Except.toBool, Except.bind, bind,
                pure, Except.pure]
            · cases hm : getMacForIp env gw with
              | crash =>
                exact absurd (by simp [discoverDevices, parseArpCacheE,
                  getDefaultGateway, hl, ha, hp, hr, hg, hin, hm, Except.bind,
                  bind, pure, Except.pure]) hnc
              | val macOpt =>
                simp [discoverDevices, parseArpCacheE, getDefaultGateway, hl,
                  ha, hp, hr, hg, hin, hm, Except.isOk, Except.toBool,
                  Except.bind, bind, pure, Except.pure]

/-- Witness for C3 at a fully healthy environment. -/
theorem claim3_witness :
    ∃ ds, discoverDevices goodDiscEnv = OrCrash.val (Except.ok ds) :=
  (claim3_error_conditions goodDiscEnv (fun h => OrCrash.noConfusion h)).mpr
    ⟨rfl, rfl, rfl⟩

/-- A device produced by the ARP fold never carries a MAC that was
already in the seen set. -/
theorem arpFold_mac_not_seen (now : Nat) :
    ∀ (pairs : List (String × String)) (seen : List String) (d : Device),
      d ∈ arpFold now pairs seen → d.mac_address ∉ seen := by
  intro pairs
  induction pairs with
  | nil => intro seen d h; cases h
  | cons q rest ih =>
    intro seen d h
    obtain ⟨ip, mac⟩ := q
    simp only [arpFold] at h
    by_cases hb : (mac == "(incomplete)" || mac == "ff:ff:ff:ff:ff:ff") = true
    · rw [if_pos hb] at h
      exact ih seen d h
    · rw [if_neg hb] at h
      by_cases hs : seen.contains (strUpper mac) = true
      · rw [if_pos hs] at h
        exact ih seen d h
      · rw [if_neg hs] at h
        rcases List.mem_cons.1 h with rfl | hmem
        · intro hx
          exact hs (by simpa using hx)
        · intro hx
          exact ih _ d hmem (List.mem_cons_of_mem _ hx)

/-- The MAC addresses of the devices the ARP fold returns are pairwise
distinct. -/
theorem arpFold_macs_nodup (now : Nat) :
    ∀ (pairs : List (String × String)) (seen : List String),
      ((arpFold now pairs seen).map (·.mac_address)).Nodup := by
  intro pairs
  induction pairs with
  | nil => intro seen; simp [arpFold]
  | cons q rest ih =>
    intro seen
    obtain ⟨ip, mac⟩ := q
    simp only [arpFold]
    by_cases hb : (mac == "(incomplete)" || mac == "ff:ff:ff:ff:ff:ff") = true
    · rw [if_pos hb]
      exact ih seen
    · rw [if_neg hb]
      by_cases hs : seen.contains (strUpper mac) = true
      · rw [if_pos hs]
        exact ih seen
      · rw [if_neg hs]
        rw [List.map_cons, List.nodup_cons]
        refine ⟨?_, ih _⟩
        intro hx
        rw [List.mem_map] at hx
        obtain ⟨d, hd, hmac⟩ := hx
        have hdm : d.mac_address = strUpper mac := hmac
        exact arpFold_mac_not_seen now rest _ d hd
          (hdm ▸ List.mem_cons_self _ _)

/-- Every device the ARP fold returns comes from the first surviving
pair whose uppercased MAC equals the device's MAC, and is built from
that pair's IP (first occurrence wins, dedup by MAC). -/
theorem arpFold_find_first (now : Nat) :
    ∀ (pairs : List (String × String)) (seen : List String) (d : Device),
      d ∈ arpFold now pairs seen →
      ∃ ip mac,
        (pairs.filter arpKeep).find? (fun p => strUpper p.2 == d.mac_address)
          = some (ip, mac) ∧
        d = Device.new (strUpper mac) ip now := by
  intro pairs
  induction pairs with
  | nil => intro seen d h; cases h
  | cons q rest ih =>
    intro seen d h
    obtain ⟨ip, mac⟩ := q
    simp only [arpFold] at h
    by_cases hb : (mac == "(incomplete)" || mac == "ff:ff:ff:ff:ff:ff") = true
    · rw [if_pos hb] at h
      have hk : ¬ arpKeep (ip, mac) = true := by simp [arpKeep, hb]
      rw [List.filter_cons_of_neg hk]
      exact ih seen d h
    · rw [if_neg hb] at h
      have hbf := Bool.eq_false_iff.mpr hb
      have hk : arpKeep (ip, mac) = true := by simp [arpKeep, hbf]
      rw [List.filter_cons_of_pos hk]
      by_cases hs : seen.contains (strUpper mac) = true
      · rw [if_pos hs] at h
        have hnot := arpFold_mac_not_seen now rest seen d h
        have hne : (strUpper mac == d.mac_address) = false := by
          rw [beq_eq_false_iff_ne]
          intro hx
          exact hnot (by rw [← hx]; simpa using hs)
        rw [List.find?_cons_of_neg _ (by simp [hne])]
        exact ih seen d h
      · rw [if_neg hs] at h
        rcases List.mem_cons.1 h with rfl | hmem
        · exact ⟨ip, mac, List.find?_cons_of_pos _ (by simp [Device.new]), rfl⟩
        · have hnot := arpFold_mac_not_seen now rest _ d hmem
          have hne : (strUpper mac == d.mac_address) = false := by
            rw [beq_eq_false_iff_ne]
            intro hx
            exact hnot (by rw [← hx]; exact List.mem_cons_self _ _)
          rw [List.find?_cons_of_neg _ (by simp [hne])]
          exact ih _ d hmem

/-- Every surviving pair's uppercased MAC shows up among the returned
devices (or was already in the seen set). -/
theorem arpFold_complete (now : Nat) :
    ∀ (pairs : List (String × String)) (seen : List String)
      (p : String × String), p ∈ pairs.filter arpKeep →
      strUpper p.2 ∈ seen ∨
      strUpper p.2 ∈ (arpFold now pairs seen).map (·.mac_address) := by
  intro pairs
  induction pairs with
  | nil => intro seen p h; cases h
  | cons q rest ih =>
    intro seen p hp
    obtain ⟨ip, mac⟩ := q
    simp only [arpFold]
    by_cases hb : (mac == "(incomplete)" || mac == "ff:ff:ff:ff:ff:ff") = true
    · rw [if_pos hb]
      have hk : ¬ arpKeep (ip, mac) = true := by simp [arpKeep, hb]
      rw [List.filter_cons_of_neg hk] at hp
      exact ih seen p hp
    · rw [if_neg hb]
      have hbf := Bool.eq_false_iff.mpr hb
      have hk : arpKeep (ip, mac) = true := by simp [arpKeep, hbf]
      rw [List.filter_cons_of_pos hk] at hp
      by_cases hs : seen.contains (strUpper mac) = true
      · rw [if_pos hs]
        rcases List.mem_cons.1 hp with rfl | hp
        · exact Or.inl (by simpa using hs)
        · exact ih seen p hp
      · rw [if_neg hs]
        rcases List.mem_cons.1 hp with rfl | hp
        · exact Or.inr (by simp [Device.new])
        · rcases ih (strUpper mac :: seen) p hp with h | h
          · rcases List.mem_cons.1 h with h | h
            · refine Or.inr ?_
              rw [List.map_cons, h]
              exact List.mem_cons_self _ _
            · exact Or.inl h
          · exact Or.inr (List.mem_cons_of_mem _ h)

/-- C7 counterexample: the line "? (192.168.1.255) at FF:FF:FF:FF:FF:FF
on en0" carries the broadcast MAC (up to case), yet the parse step keeps
it, because the filter compares against the lowercase literal before
normalizing case; and a line whose first closing parenthesis precedes
its first opening one is not discarded either — parse_arp_line panics
on it and the whole parse aborts. -/
theorem claim7_counterexample :
    parseArpLine isValidIpv4 broadcastLine
      = LineParse.parsed "192.168.1.255" "FF:FF:FF:FF:FF:FF" ∧
    strLower "FF:FF:FF:FF:FF:FF" = "ff:ff:ff:ff:ff:ff" ∧
    parseArpText isValidIpv4 0 broadcastLine
      = OrCrash.val [Device.new "FF:FF:FF:FF:FF:FF" "192.168.1.255" 0] ∧
    parseArpLine isValidIpv4 crashingArpLine = LineParse.crash ∧
    parseArpText isValidIpv4 0 (broadcastLine ++ "\n" ++ crashingArpLine)
      = OrCrash.crash := by
  refine ⟨by decide, by decide, by decide, by decide, by decide⟩

/-- C7 amended: whenever the parse step returns at all (no line panics
parse_arp_line with a closing parenthesis before the first opening
one), then among the lines that parse to an (ip, mac) pair, one is
discarded exactly when the MAC equals the lowercase literal broadcast
string (so an uppercase broadcast MAC is kept), equals "(incomplete)",
or repeats an already-seen normalized MAC; lines that parse to no pair
contribute nothing.  Consequently the returned list has
pairwise-distinct uppercased MACs, every returned device is built from
the first surviving occurrence of its MAC (dedup by MAC, never by IP),
and every surviving pair is represented. -/
theorem claim7_dedup_by_mac (ipOk : String → Bool) (now : Nat) (text : String)
    (ds : List Device) (h : parseArpText ipOk now text = OrCrash.val ds) :
    (ds.map (·.mac_address)).Nodup ∧
    (∀ d ∈ ds,
      ∃ ip mac,
        (eligiblePairs ipOk text).find? (fun p => strUpper p.2 == d.mac_address)
          = some (ip, mac) ∧
        d = Device.new (strUpper mac) ip now) ∧
    (∀ p ∈ eligiblePairs ipOk text,
      strUpper p.2 ∈ ds.map (·.mac_address)) := by
  have hds : ds = arpFold now (parsedPairs ipOk text) [] := by
    unfold parseArpText at h
    split at h
    · cases h
    · injection h with h2
      exact h2.symm
  subst hds
  refine ⟨arpFold_macs_nodup now _ [], ?_, ?_⟩
  · intro d hd
    exact arpFold_find_first now _ [] d hd
  · intro p hp
    rcases arpFold_complete now _ [] p hp with h | h
    · cases h
    · exact h

/-- Witness for C7 on a three-line input with a duplicate MAC under a
different IP and casing. -/
theorem claim7_witness :
    (dupMacDevices.map (·.mac_address)).Nodup ∧
    strUpper "aa:bb:cc:dd:ee:01" ∈ dupMacDevices.map (·.mac_address) :=
  ⟨(claim7_dedup_by_mac isValidIpv4 7 dupMacArpText dupMacDevices (by decide)).1,
   (claim7_dedup_by_mac isValidIpv4 7 dupMacArpText dupMacDevices (by decide)).2.2
     ("10.0.0.1", "aa:bb:cc:dd:ee:01") (by decide)⟩

end WifiAnalyzer
